import Mathlib

/-!
Shallow embedding of `cloudkitty/storage/sqlalchemy/__init__.py`
(class `SQLAlchemyStorage`): the write path (`_append_time_frame`,
`_pre_commit`) and the read-side aggregation queries (`get_total`,
`get_tenants`, `get_time_frame`, `get_project_usage`,
`get_instance_usage`, `get_bandwidth_hourly_usage`).

Modelling conventions:
* timestamps are integers (`ts2dt`/`dt2ts` are order isomorphisms);
* `Decimal` quantities and rates are rationals (exact decimals embed in ℚ);
* the stored table is a `List Frame` (insertion order);
* the JSON `desc` blob is modelled by the fields the queries actually
  read (`instance_id`, `instance_name`, `name`, `display_name`,
  `properties.instance_uuid`), each `Option String` since a missing JSON
  key yields SQL NULL;
* optional query arguments are `Option String` / `Option ℚ`; a Python
  falsy value (`None` or `""`) disables a filter, matching
  `if tenant_id:` / `if filter_value:` truthiness tests;
* SQL `sum` over zero rows is `none` (NULL), over rows it is the exact
  sum; Python dicts that preserve insertion order are association lists.
-/

namespace CloudKitty

/-- The `desc` JSON metadata blob, restricted to the keys the query
engine reads (`fm.desc.cast(JSON)[key].astext`); `none` models a missing
key (SQL NULL). The key `properties.instance_uuid` is the literal key
string used in the source. -/
structure Desc where
  instance_id : Option String
  instance_name : Option String
  name : Option String
  display_name : Option String
  properties_instance_uuid : Option String
deriving DecidableEq, Repr

/-- Model of `json.dumps('')`: a desc with no readable keys (all lookups NULL). -/
def Desc.empty : Desc := ⟨none, none, none, none, none⟩

/-- One row of the `RatedDataFrame` table (`models.RatedDataFrame`):
logical columns `tenant_id, res_type, unit, qty, rate, desc, begin, end`. -/
structure Frame where
  tenant_id : String
  res_type : String
  unit : String
  qty : ℚ
  rate : ℚ
  desc : Desc
  begin : ℤ
  end_ : ℤ
deriving DecidableEq, Repr

/-- Python truthiness of an optional string argument (`if tenant_id:`):
`None` and `""` are falsy. -/
def truthy : Option String → Bool
  | none => false
  | some s => s ≠ ""

/-- A column filter as applied by the storage code: the filter clause is
added only when the argument is truthy (`if tenant_id: q = q.filter(...)`). -/
def pyFilter (v : Option String) (column : String) : Bool :=
  match v with
  | none => true
  | some s => if s = "" then true else column = s

/-- The window clause shared by every read query:
`frame.begin >= begin AND frame.end <= end`, both inclusive. -/
def windowFilter (b e : ℤ) (f : Frame) : Bool :=
  decide (b ≤ f.begin) && decide (f.end_ ≤ e)

/-! ### Write path -/

/-- The `vol` sub-record of an incoming usage record; `none` models a
missing dict key (Python `vol_dict['qty']` raises on it). -/
structure Vol where
  qty : Option ℚ
  unit : Option String
deriving DecidableEq, Repr

/-- An incoming usage record: `{'vol': {...}, 'rating': {'price': ...}, 'desc': ...}`.
`rating_price` is `frame.get('rating', {}).get('price')` flattened:
`none` when either the `rating` key or its `price` key is absent. -/
structure UsageRecord where
  vol : Vol
  rating_price : Option ℚ
  desc : Desc
deriving DecidableEq, Repr

/-- Error kinds of the storage layer (the exception classes live in the
`cloudkitty.storage` base module, outside this file's source; named from
the spec's error taxonomy). -/
inductive StorageError where
  | invalidFrame
  | noTimeFrame
deriving DecidableEq, Repr

/-- Embeds `SQLAlchemyStorage._append_time_frame(res_type, frame, tenant_id)`:
reads `qty`/`unit` from the `vol` sub-record (failing when either key is
missing), defaults a falsy `price` to `Decimal(0)`, and builds the row
stamped with the session's period bounds `b`/`e`
(`usage_start_dt`/`usage_end_dt`). -/
def _append_time_frame (res_type : String) (frame : UsageRecord)
    (tenant_id : String) (b e : ℤ) : Except StorageError Frame :=
  match frame.vol.qty, frame.vol.unit with
  | some qty, some unit =>
    let rate : ℚ :=
      match frame.rating_price with
      | none => 0
      | some p => if p = 0 then 0 else p
    Except.ok
      { tenant_id := tenant_id, res_type := res_type, unit := unit,
        qty := qty, rate := rate, desc := frame.desc, begin := b, end_ := e }
  | _, _ => Except.error StorageError.invalidFrame

/-- Appending into the open session: on success the built frame is added
to the pending rows (`add_time_frame` / `session.add`); on failure the
pending rows are untouched. -/
def append_frame (pending : List Frame) (res_type : String)
    (frame : UsageRecord) (tenant_id : String) (b e : ℤ) :
    Except StorageError (List Frame) :=
  (_append_time_frame res_type frame tenant_id b e).map
    (fun fr => pending ++ [fr])

/-- The literal `empty_frame` dict of `_pre_commit`:
`{'vol': {'qty': 0, 'unit': 'None'}, 'rating': {'price': 0}, 'desc': ''}`. -/
def empty_frame : UsageRecord :=
  { vol := { qty := some 0, unit := some "None" },
    rating_price := some 0, desc := Desc.empty }

/-- Embeds `SQLAlchemyStorage._pre_commit(tenant_id)`: when
`self._has_data.get(tenant_id)` is falsy, appends the `_NO_DATA_`
sentinel built from `empty_frame` to the pending rows; `has_data` is the
truthiness of that lookup. -/
def _pre_commit (has_data : Bool) (pending : List Frame)
    (tenant_id : String) (b e : ℤ) : List Frame :=
  if has_data then pending
  else
    match _append_time_frame "_NO_DATA_" empty_frame tenant_id b e with
    | Except.ok fr => pending ++ [fr]
    | Except.error _ => pending

/-! ### Read path: scalar queries -/

/-- Row predicate of `get_total`: optional `tenant_id` / `service`
filters plus the window clause; there is no `res_type != '_NO_DATA_'`
clause in `get_total`. -/
def totalFilter (b e : ℤ) (tenant_id service : Option String)
    (f : Frame) : Bool :=
  pyFilter tenant_id f.tenant_id && pyFilter service f.res_type &&
    windowFilter b e f

/-- Embeds `SQLAlchemyStorage.get_total`: `SELECT sum(rate)` over the matching
rows; SQL `sum` of zero rows is NULL, so `q.scalar()` is `none` exactly
when no row matches. -/
def get_total (frames : List Frame) (b e : ℤ)
    (tenant_id service : Option String) : Option ℚ :=
  let rows := frames.filter (totalFilter b e tenant_id service)
  if rows.isEmpty then none else some ((rows.map Frame.rate).sum)

/-- Embeds `SQLAlchemyStorage.get_tenants`: distinct `tenant_id` over all rows
in the window (no `res_type` clause of any kind). -/
def get_tenants (frames : List Frame) (b e : ℤ) : List String :=
  ((frames.filter (windowFilter b e)).map Frame.tenant_id).dedup

/-- Row predicate of `get_time_frame`: window clause, each truthy filter
as an equality clause, and—only when the `res_type` filter is absent or
falsy—the `res_type != '_NO_DATA_'` clause. -/
def timeFrameFilter (b e : ℤ) (tenant_id res_type : Option String)
    (f : Frame) : Bool :=
  windowFilter b e f && pyFilter tenant_id f.tenant_id &&
    pyFilter res_type f.res_type &&
    (truthy res_type || decide (f.res_type ≠ "_NO_DATA_"))

/-- Embeds `SQLAlchemyStorage.get_time_frame(begin, end, **filters)` with the
`tenant_id` and `res_type` filters (the ones the callers use): raises
`NoTimeFrame` when `q.count()` is zero, otherwise returns every matching
row (each converted by `to_cloudkitty`, which per the storage contract
passes the stored fields through unmodified). -/
def get_time_frame (frames : List Frame) (b e : ℤ)
    (tenant_id res_type : Option String) :
    Except StorageError (List Frame) :=
  let rows := frames.filter (timeFrameFilter b e tenant_id res_type)
  match rows with
  | [] => Except.error StorageError.noTimeFrame
  | _ => Except.ok rows

/-! ### Association-list helpers (insertion-ordered Python dicts) -/

/-- Lookup in an insertion-ordered dict. -/
def lookupA {α β : Type} [DecidableEq α] : List (α × β) → α → Option β
  | [], _ => none
  | (a, b) :: t, k => if a = k then some b else lookupA t k

/-- Model of `usage.setdefault(k, d)` followed by an in-place update of
`usage[k]` by `f`: a missing key is inserted at the end (Python dicts
keep insertion order), an existing binding is updated in place. -/
def upsert {α β : Type} [DecidableEq α] (m : List (α × β)) (k : α)
    (d : β) (f : β → β) : List (α × β) :=
  match m with
  | [] => [(k, f d)]
  | (a, b) :: t => if a = k then (a, f b) :: t else (a, b) :: upsert t k d f

/-! ### `get_project_usage` -/

/-- Row predicate of `get_project_usage` / `get_instance_usage`:
optional filters, window clause, and the unconditional
`res_type != '_NO_DATA_'` clause. -/
def usageFilter (b e : ℤ) (tenant_id service : Option String)
    (f : Frame) : Bool :=
  pyFilter tenant_id f.tenant_id && pyFilter service f.res_type &&
    windowFilter b e f && decide (f.res_type ≠ "_NO_DATA_")

/-- The `instance_id` CASE expression of both usage queries:
`CASE WHEN res_type = 'image' THEN desc->'properties.instance_uuid'
ELSE desc->'instance_id' END`. -/
def instanceIdOf (f : Frame) : Option String :=
  if f.res_type = "image" then f.desc.properties_instance_uuid
  else f.desc.instance_id

/-- The `instance_name` CASE expression of both usage queries. -/
def instanceNameOf (f : Frame) : Option String :=
  if f.res_type = "compute" then f.desc.name
  else if f.res_type = "network.bw.in" ∨ f.res_type = "network.bw.out" then
    f.desc.display_name
  else f.desc.instance_name

/-- One row of `get_project_usage`'s grouped SELECT
(`GROUP BY tenant_id, res_type, unit`, with `sum(qty)`, `sum(rate)` and
`array_agg(DISTINCT ...)` for the two CASE expressions). -/
structure PGroup where
  tenant_id : String
  res_type : String
  instance_id : List (Option String)
  instance_name : List (Option String)
  unit : String
  qty : ℚ
  rate : ℚ
deriving DecidableEq, Repr

/-- The rows that survive `get_project_usage`'s filters. -/
def projectRows (frames : List Frame) (b e : ℤ)
    (tenant_id service : Option String) : List Frame :=
  frames.filter (usageFilter b e tenant_id service)

/-- The grouped result set of `get_project_usage` (`q.all()`), one row
per distinct `(tenant_id, res_type, unit)` of the filtered rows. -/
def project_groups (frames : List Frame) (b e : ℤ)
    (tenant_id service : Option String) : List PGroup :=
  let rows := projectRows frames b e tenant_id service
  ((rows.map (fun f => (f.tenant_id, f.res_type, f.unit))).dedup).map
    (fun k =>
      let grp := rows.filter
        (fun f => (f.tenant_id, f.res_type, f.unit) = k)
      { tenant_id := k.1, res_type := k.2.1,
        instance_id := (grp.map instanceIdOf).dedup,
        instance_name := (grp.map instanceNameOf).dedup,
        unit := k.2.2,
        qty := (grp.map Frame.qty).sum,
        rate := (grp.map Frame.rate).sum })

/-- One `{qty, unit, rate}` entry of a per-resource-type list. -/
structure PUEntry where
  qty : ℚ
  unit : String
  rate : ℚ
deriving DecidableEq, Repr

/-- The per-tenant value of `get_project_usage`'s result: the `'total'`
key (holding `{'rate': ...}`) and the per-`res_type` entry lists. -/
structure TenantUsage where
  total_rate : ℚ
  byType : List (String × List PUEntry)
deriving DecidableEq, Repr

/-- One iteration of `get_project_usage`'s result loop for a group row
`r`: `setdefault` the tenant, add `r['rate']` into `total.rate`, and
append `{qty, unit, rate}` to the `res_type` list. -/
def projectStep (usage : List (String × TenantUsage)) (r : PGroup) :
    List (String × TenantUsage) :=
  upsert usage r.tenant_id { total_rate := 0, byType := [] }
    (fun tu =>
      { total_rate := tu.total_rate + r.rate,
        byType := upsert tu.byType r.res_type []
          (fun l => l ++ [{ qty := r.qty, unit := r.unit, rate := r.rate }]) })

/-- Embeds `SQLAlchemyStorage.get_project_usage`: filter, group, then fold the
group rows into the nested `usage` mapping. -/
def get_project_usage (frames : List Frame) (b e : ℤ)
    (tenant_id service : Option String) : List (String × TenantUsage) :=
  (project_groups frames b e tenant_id service).foldl projectStep []

/-! ### `get_instance_usage` -/

/-- One row of `get_instance_usage`'s grouped SELECT (`GROUP BY
tenant_id, res_type, unit, instance_id`; `instance_name` is
`array_agg(DISTINCT ...)`). -/
structure IGroup where
  tenant_id : String
  res_type : String
  unit : String
  instance_id : Option String
  instance_name : List (Option String)
  qty : ℚ
  rate : ℚ
deriving DecidableEq, Repr

/-- The rows that survive `get_instance_usage`'s filters (identical
clauses to `get_project_usage`). -/
def instanceRows (frames : List Frame) (b e : ℤ)
    (tenant_id service : Option String) : List Frame :=
  frames.filter (usageFilter b e tenant_id service)

/-- The grouped result set of `get_instance_usage`, one row per distinct
`(tenant_id, res_type, unit, instance_id)` of the filtered rows, where
`instance_id` is the CASE expression `instanceIdOf`. -/
def instance_groups (frames : List Frame) (b e : ℤ)
    (tenant_id service : Option String) : List IGroup :=
  let rows := instanceRows frames b e tenant_id service
  ((rows.map
      (fun f => (f.tenant_id, f.res_type, f.unit, instanceIdOf f))).dedup).map
    (fun k =>
      let grp := rows.filter
        (fun f => (f.tenant_id, f.res_type, f.unit, instanceIdOf f) = k)
      { tenant_id := k.1, res_type := k.2.1, unit := k.2.2.1,
        instance_id := k.2.2.2,
        instance_name := (grp.map instanceNameOf).dedup,
        qty := (grp.map Frame.qty).sum,
        rate := (grp.map Frame.rate).sum })

/-- The per-instance value of `get_instance_usage`'s result:
`{'instance_name': ..., 'instance_id': ..., res_type: [...], ...}`. -/
structure InstanceUsage where
  instance_name : List (Option String)
  instance_id : Option String
  byType : List (String × List PUEntry)
deriving DecidableEq, Repr

/-- One iteration of `get_instance_usage`'s result loop: `setdefault`
the tenant dict, `setdefault` the instance dict keyed by the grouped
`instance_id`, then append `{qty, unit, rate}` under the `res_type`. -/
def instanceStep
    (usage : List (String × List (Option String × InstanceUsage)))
    (r : IGroup) : List (String × List (Option String × InstanceUsage)) :=
  upsert usage r.tenant_id []
    (fun tmap =>
      upsert tmap r.instance_id
        { instance_name := r.instance_name, instance_id := r.instance_id,
          byType := [] }
        (fun iu =>
          { iu with
            byType := upsert iu.byType r.res_type []
              (fun l =>
                l ++ [{ qty := r.qty, unit := r.unit, rate := r.rate }]) }))

/-- Embeds `SQLAlchemyStorage.get_instance_usage`: filter, group, then fold the
group rows into the tenant → instance → usage mapping. -/
def get_instance_usage (frames : List Frame) (b e : ℤ)
    (tenant_id service : Option String) :
    List (String × List (Option String × InstanceUsage)) :=
  (instance_groups frames b e tenant_id service).foldl instanceStep []

/-! ### `get_bandwidth_hourly_usage` -/

/-- Row predicate of `get_bandwidth_hourly_usage`: optional filters,
window clause, and `res_type IN ('network.bw.in', 'network.bw.out')`. -/
def bwFilter (b e : ℤ) (tenant_id service : Option String)
    (f : Frame) : Bool :=
  pyFilter tenant_id f.tenant_id && pyFilter service f.res_type &&
    windowFilter b e f &&
    (decide (f.res_type = "network.bw.in") ||
      decide (f.res_type = "network.bw.out"))

/-- The rows that survive `get_bandwidth_hourly_usage`'s filters. -/
def bwRows (frames : List Frame) (b e : ℤ)
    (tenant_id service : Option String) : List Frame :=
  frames.filter (bwFilter b e tenant_id service)

/-- One row of the bandwidth pivot (`GROUP BY begin, end, tenant_id,
unit`): conditional sums `sum(CASE WHEN res_type = 'network.bw.in' THEN
qty ELSE 0 END)` and likewise for `network.bw.out`. -/
structure BWRow where
  begin : ℤ
  end_ : ℤ
  tenant_id : String
  unit : String
  bw_in : ℚ
  bw_out : ℚ
deriving DecidableEq, Repr

/-- The grouped `data` rows of `get_bandwidth_hourly_usage`. -/
def bw_data (frames : List Frame) (b e : ℤ)
    (tenant_id service : Option String) : List BWRow :=
  let rows := bwRows frames b e tenant_id service
  ((rows.map (fun f => (f.begin, f.end_, f.tenant_id, f.unit))).dedup).map
    (fun k =>
      let grp := rows.filter
        (fun f => (f.begin, f.end_, f.tenant_id, f.unit) = k)
      { begin := k.1, end_ := k.2.1, tenant_id := k.2.2.1, unit := k.2.2.2,
        bw_in := (grp.map
          (fun f => if f.res_type = "network.bw.in" then f.qty else 0)).sum,
        bw_out := (grp.map
          (fun f => if f.res_type = "network.bw.out" then f.qty else 0)).sum })

/-- The `usage['total']` dict: the two running decimal totals, plus the
`'unit'` key which is only present once a row has been folded in
(`none` models the absent key). -/
structure BWTotal where
  bw_in : ℚ
  bw_out : ℚ
  unit : Option String
deriving DecidableEq, Repr

/-- One iteration of the totals loop of `get_bandwidth_hourly_usage`:
adds the row's two columns into the totals and overwrites
`total['unit']` with the row's unit. -/
def bwStep (t : BWTotal) (r : BWRow) : BWTotal :=
  { bw_in := t.bw_in + r.bw_in, bw_out := t.bw_out + r.bw_out,
    unit := some r.unit }

/-- The full result of `get_bandwidth_hourly_usage`. -/
structure BWUsage where
  data : List BWRow
  total : BWTotal
deriving DecidableEq, Repr

/-- Embeds `SQLAlchemyStorage.get_bandwidth_hourly_usage`: the pivoted `data`
rows plus the totals fold starting from
`{'network.bw.in': Decimal(0), 'network.bw.out': Decimal(0)}`. -/
def get_bandwidth_hourly_usage (frames : List Frame) (b e : ℤ)
    (tenant_id service : Option String) : BWUsage :=
  let data := bw_data frames b e tenant_id service
  { data := data,
    total := data.foldl bwStep { bw_in := 0, bw_out := 0, unit := none } }

/-! ### Helper lemmas -/

/-- The concrete sentinel row produced by `_pre_commit` for a period
`[b, e]` of a tenant. -/
def sentinelFrame (tenant_id : String) (b e : ℤ) : Frame :=
  { tenant_id := tenant_id, res_type := "_NO_DATA_", unit := "None",
    qty := 0, rate := 0, desc := Desc.empty, begin := b, end_ := e }

lemma pre_commit_false_eq (pending : List Frame) (tenant_id : String)
    (b e : ℤ) :
    _pre_commit false pending tenant_id b e =
      pending ++ [sentinelFrame tenant_id b e] := rfl

lemma filter_sub {α : Type} (P S : α → Bool)
    (h : ∀ a, P a = true → S a = true) :
    ∀ l : List α, (l.filter S).filter P = l.filter P := by
  intro l
  induction l with
  | nil => rfl
  | cons a t ih =>
    by_cases hS : S a = true
    · by_cases hP : P a = true
      · simp [List.filter_cons, hS, hP, ih]
      · simp [List.filter_cons, hS, hP, ih]
    · have hP : P a = false := by
        cases hPa : P a
        · rfl
        · exact absurd (h a hPa) hS
      simp [List.filter_cons, hS, hP, ih]

lemma lookupA_upsert {α β : Type} [DecidableEq α] (m : List (α × β))
    (k : α) (d : β) (f : β → β) (k' : α) :
    lookupA (upsert m k d f) k' =
      if k' = k then some (f ((lookupA m k).getD d)) else lookupA m k' := by
  induction m with
  | nil =>
    by_cases h : k' = k
    · subst h; simp [upsert, lookupA]
    · simp [upsert, lookupA, Ne.symm h, h]
  | cons q t ih =>
    obtain ⟨a, b⟩ := q
    by_cases hak : a = k
    · subst hak
      by_cases h : k' = a
      · subst h; simp [upsert, lookupA]
      · simp [upsert, lookupA, Ne.symm h, h]
    · by_cases h : a = k'
      · subst h
        have : ¬ a = k := hak
        simp [upsert, lookupA, hak, Ne.symm hak, this]
      · simp [upsert, lookupA, hak, h, ih]

lemma mem_upsert {α β : Type} [DecidableEq α] {m : List (α × β)} {k : α}
    {d : β} {f : β → β} {p : α × β} (h : p ∈ upsert m k d f) :
    p ∈ m ∨ (∃ b, (k, b) ∈ m ∧ p = (k, f b)) ∨ p = (k, f d) := by
  induction m with
  | nil =>
    simp [upsert] at h
    exact Or.inr (Or.inr h)
  | cons q t ih =>
    obtain ⟨a, b0⟩ := q
    by_cases hak : a = k
    · subst hak
      simp [upsert] at h
      rcases h with h | h
      · exact Or.inr (Or.inl ⟨b0, by simp, h⟩)
      · exact Or.inl (List.mem_cons_of_mem _ h)
    · simp [upsert, hak] at h
      rcases h with h | h
      · exact Or.inl (by simp [h])
      · rcases ih h with h' | ⟨b, hb, hp⟩ | h'
        · exact Or.inl (List.mem_cons_of_mem _ h')
        · exact Or.inr (Or.inl ⟨b, List.mem_cons_of_mem _ hb, hp⟩)
        · exact Or.inr (Or.inr h')

/-- The sum, over every resource-type list of a per-tenant usage dict,
of the `rate` field of every entry. -/
def typeRatesSum (l : List (String × List PUEntry)) : ℚ :=
  (l.map (fun p => ((p.2.map PUEntry.rate)).sum)).sum

lemma typeRatesSum_upsert (l : List (String × List PUEntry)) (k : String)
    (x : PUEntry) :
    typeRatesSum (upsert l k [] (fun es => es ++ [x])) =
      typeRatesSum l + x.rate := by
  induction l with
  | nil => simp [upsert, typeRatesSum]
  | cons p t ih =>
    obtain ⟨a, es⟩ := p
    by_cases h : a = k
    · subst h
      simp [upsert, typeRatesSum]
      ring
    · simp [upsert, h, typeRatesSum] at ih ⊢
      rw [ih]
      ring

lemma foldl_bwStep_in (l : List BWRow) (t : BWTotal) :
    (l.foldl bwStep t).bw_in = t.bw_in + (l.map BWRow.bw_in).sum := by
  induction l generalizing t with
  | nil => simp
  | cons r l ih => simp [ih, bwStep]; ring

lemma foldl_bwStep_out (l : List BWRow) (t : BWTotal) :
    (l.foldl bwStep t).bw_out = t.bw_out + (l.map BWRow.bw_out).sum := by
  induction l generalizing t with
  | nil => simp
  | cons r l ih => simp [ih, bwStep]; ring

lemma foldl_bwStep_unit : ∀ (l : List BWRow) (t : BWTotal),
    (l.foldl bwStep t).unit =
      (l.getLast?.map (fun r => some r.unit)).getD t.unit
  | [], _ => rfl
  | a :: l, t => by
    rw [List.foldl_cons, foldl_bwStep_unit l (bwStep t a)]
    cases l with
    | nil => rfl
    | cons b l' =>
      have hs : ((b :: l').getLast?).isSome := by
        rw [List.getLast?_isSome]
        simp
      obtain ⟨r, hr⟩ := Option.isSome_iff_exists.mp hs
      simp [List.getLast?_cons_cons, hr]

/-! ### Claim theorems -/

/-- C4: for every input usage record whose `vol` sub-record is missing
the `qty` field or the `unit` field, `_append_time_frame` fails with the
`InvalidFrame` error, and no frame is inserted for that record (the
session-level append also fails, leaving the pending rows untouched). -/
theorem append_invalid_frame (res_type : String) (rec : UsageRecord)
    (tenant_id : String) (b e : ℤ) (pending : List Frame)
    (h : rec.vol.qty = none ∨ rec.vol.unit = none) :
    _append_time_frame res_type rec tenant_id b e =
      Except.error StorageError.invalidFrame ∧
    append_frame pending res_type rec tenant_id b e =
      Except.error StorageError.invalidFrame := by
  have h1 : _append_time_frame res_type rec tenant_id b e =
      Except.error StorageError.invalidFrame := by
    cases hq : rec.vol.qty with
    | none => simp [_append_time_frame, hq]
    | some q =>
      cases hu : rec.vol.unit with
      | none => simp [_append_time_frame, hq, hu]
      | some u =>
        rcases h with h | h
        · rw [hq] at h; exact absurd h (by simp)
        · rw [hu] at h; exact absurd h (by simp)
  exact ⟨h1, by rw [append_frame, h1]; rfl⟩

/-- Witness for C4: a concrete record with a missing `qty`. -/
theorem append_invalid_frame_witness :
    _append_time_frame "compute"
        { vol := { qty := none, unit := some "hour" },
          rating_price := some 3, desc := Desc.empty } "tenantA" 0 10 =
      Except.error StorageError.invalidFrame ∧
    append_frame [] "compute"
        { vol := { qty := none, unit := some "hour" },
          rating_price := some 3, desc := Desc.empty } "tenantA" 0 10 =
      Except.error StorageError.invalidFrame :=
  append_invalid_frame "compute"
    { vol := { qty := none, unit := some "hour" },
      rating_price := some 3, desc := Desc.empty } "tenantA" 0 10 []
    (Or.inl rfl)

/-- C5: finalizing with `has_data[tenant_id]` falsy inserts exactly one
sentinel frame with `res_type = "_NO_DATA_"`, `qty = 0`, `unit = "None"`
and `rate = 0` into the pending rows handed to the commit; with
`has_data[tenant_id]` true no sentinel is inserted. -/
theorem pre_commit_sentinel (pending : List Frame) (tenant_id : String)
    (b e : ℤ) :
    _pre_commit false pending tenant_id b e =
      pending ++ [sentinelFrame tenant_id b e] ∧
    (sentinelFrame tenant_id b e).res_type = "_NO_DATA_" ∧
    (sentinelFrame tenant_id b e).qty = 0 ∧
    (sentinelFrame tenant_id b e).unit = "None" ∧
    (sentinelFrame tenant_id b e).rate = 0 ∧
    _pre_commit true pending tenant_id b e = pending :=
  ⟨pre_commit_false_eq pending tenant_id b e, rfl, rfl, rfl, rfl, rfl⟩

/-- C7: in every `get_bandwidth_hourly_usage` result, the
`total["network.bw.in"]` value is the exact sum of the
`"network.bw.in"` column over every row of `data`, and likewise for
`"network.bw.out"`. -/
theorem bw_totals_sum (frames : List Frame) (b e : ℤ)
    (tenant_id service : Option String) :
    (get_bandwidth_hourly_usage frames b e tenant_id service).total.bw_in =
      (((get_bandwidth_hourly_usage frames b e tenant_id service).data).map
        BWRow.bw_in).sum ∧
    (get_bandwidth_hourly_usage frames b e tenant_id service).total.bw_out =
      (((get_bandwidth_hourly_usage frames b e tenant_id service).data).map
        BWRow.bw_out).sum := by
  constructor
  · simp [get_bandwidth_hourly_usage, foldl_bwStep_in]
  · simp [get_bandwidth_hourly_usage, foldl_bwStep_out]

/-- C10: when `get_bandwidth_hourly_usage` matches zero rows the totals
dict holds exactly the two zero bandwidth totals and no `"unit"` key
(`unit = none`); in general `total["unit"]` is the unit of the last row
of `data` (whatever units earlier rows carry), absent when `data` is
empty. -/
theorem bw_total_unit_spec (frames : List Frame) (b e : ℤ)
    (tenant_id service : Option String) :
    ((get_bandwidth_hourly_usage frames b e tenant_id service).data = [] →
      (get_bandwidth_hourly_usage frames b e tenant_id service).total.bw_in
          = 0 ∧
      (get_bandwidth_hourly_usage frames b e tenant_id service).total.bw_out
          = 0 ∧
      (get_bandwidth_hourly_usage frames b e tenant_id service).total.unit
          = none) ∧
    (get_bandwidth_hourly_usage frames b e tenant_id service).total.unit =
      ((get_bandwidth_hourly_usage frames b e tenant_id service).data
        ).getLast?.map BWRow.unit := by
  constructor
  · intro hd
    refine ⟨?_, ?_, ?_⟩ <;>
      simp [get_bandwidth_hourly_usage] at hd ⊢ <;>
      simp [hd, foldl_bwStep_in, foldl_bwStep_out, foldl_bwStep_unit]
  · simp only [get_bandwidth_hourly_usage]
    rw [foldl_bwStep_unit]
    cases h : (bw_data frames b e tenant_id service).getLast? <;> simp [h]

/-- Witness for C10: the empty store matches zero rows; its totals are
the two zeros with no unit key. -/
theorem bw_total_unit_spec_witness :
    (get_bandwidth_hourly_usage [] 0 10 none none).total.bw_in = 0 ∧
    (get_bandwidth_hourly_usage [] 0 10 none none).total.bw_out = 0 ∧
    (get_bandwidth_hourly_usage [] 0 10 none none).total.unit = none :=
  (bw_total_unit_spec [] 0 10 none none).1 rfl

/-- Counterexample to C2: a tenant whose only frame in the window is the
sentinel inserted by `_pre_commit` IS returned by `get_tenants` (the
query has no `res_type` clause at all). -/
theorem get_tenants_sentinel_counterexample :
    get_tenants (_pre_commit false [] "tenantB" 0 10) 0 10 = ["tenantB"] ∧
    ∀ f ∈ _pre_commit false [] "tenantB" 0 10,
      f.res_type = "_NO_DATA_" := by
  constructor
  · rfl
  · intro f hf
    rw [pre_commit_false_eq] at hf
    simp at hf
    rw [hf]
    rfl

/-- C2 (amended): `get_tenants` returns exactly the distinct tenant_ids
having at least one frame of any `res_type`—sentinels included—whose
begin/end fall inside the window; a tenant whose only frame in the
window is a sentinel is also returned. -/
theorem get_tenants_spec (frames : List Frame) (b e : ℤ) (t : String) :
    t ∈ get_tenants frames b e ↔
      ∃ f, f ∈ frames ∧ f.tenant_id = t ∧ b ≤ f.begin ∧ f.end_ ≤ e := by
  simp only [get_tenants, List.mem_dedup, List.mem_map, List.mem_filter,
    windowFilter, Bool.and_eq_true, decide_eq_true_eq]
  constructor
  · rintro ⟨f, ⟨hf, hb, he⟩, ht⟩
    exact ⟨f, hf, ht, hb, he⟩
  · rintro ⟨f, hf, ht, hb, he⟩
    exact ⟨f, ⟨hf, hb, he⟩, ht⟩

/-- C3: `get_time_frame` fails with `NoTimeFrame` exactly when zero rows
match the window and filters (sentinel rows being excluded from matching
whenever the `res_type` filter is absent or falsy), never returns an
empty sequence, and on success returns precisely the matching rows. -/
theorem get_time_frame_spec (frames : List Frame) (b e : ℤ)
    (tenant_id res_type : Option String) :
    (get_time_frame frames b e tenant_id res_type =
        Except.error StorageError.noTimeFrame ↔
      frames.filter (timeFrameFilter b e tenant_id res_type) = []) ∧
    (∀ l, get_time_frame frames b e tenant_id res_type = Except.ok l →
      l ≠ [] ∧
        l = frames.filter (timeFrameFilter b e tenant_id res_type)) ∧
    (∀ f : Frame, timeFrameFilter b e tenant_id res_type f = true ↔
      ((b ≤ f.begin ∧ f.end_ ≤ e) ∧
       (∀ s, tenant_id = some s → s ≠ "" → f.tenant_id = s) ∧
       (∀ s, res_type = some s → s ≠ "" → f.res_type = s) ∧
       (truthy res_type = false → f.res_type ≠ "_NO_DATA_"))) := by
  refine ⟨?_, ?_, ?_⟩
  · unfold get_time_frame
    cases h : frames.filter (timeFrameFilter b e tenant_id res_type) with
    | nil => simp
    | cons a tl => simp
  · intro l hl
    unfold get_time_frame at hl
    cases h : frames.filter (timeFrameFilter b e tenant_id res_type) with
    | nil => rw [h] at hl; exact absurd hl (by simp)
    | cons a tl =>
      rw [h] at hl
      simp at hl
      subst hl
      exact ⟨by simp, rfl⟩
  · intro f
    simp only [timeFrameFilter, windowFilter, pyFilter, truthy,
      Bool.and_eq_true, Bool.or_eq_true, decide_eq_true_eq]
    cases tenant_id with
    | none =>
      cases res_type with
      | none => simp
      | some s =>
        by_cases hs : s = "" <;> simp [hs]
    | some s0 =>
      cases res_type with
      | none =>
        by_cases hs0 : s0 = "" <;> simp [hs0]
        tauto
      | some s =>
        by_cases hs0 : s0 = "" <;> by_cases hs : s = "" <;>
          simp [hs0, hs] <;> tauto

/-- Witness for C3: one matching row yields a non-empty `ok` result. -/
theorem get_time_frame_spec_witness :
    (([⟨"tenantA", "compute", "hour", 2, 3, Desc.empty, 0, 10⟩] :
        List Frame) ≠ []) ∧
    ([⟨"tenantA", "compute", "hour", 2, 3, Desc.empty, 0, 10⟩] :
        List Frame) =
      ([⟨"tenantA", "compute", "hour", 2, 3, Desc.empty, 0, 10⟩] :
        List Frame).filter (timeFrameFilter 0 10 none none) :=
  (get_time_frame_spec
    [⟨"tenantA", "compute", "hour", 2, 3, Desc.empty, 0, 10⟩]
    0 10 none none).2.1
    [⟨"tenantA", "compute", "hour", 2, 3, Desc.empty, 0, 10⟩] (by rfl)

/-- A frame filling one period `[0, 10]`; its `end` equals the begin of
the adjacent period `[10, 20]`. -/
def boundaryFrame : Frame :=
  { tenant_id := "tenantA", res_type := "compute", unit := "hour",
    qty := 1, rate := 1, desc := Desc.empty, begin := 0, end_ := 10 }

/-- Counterexample to C8: a frame whose `end` equals the next window's
`begin` does NOT satisfy both adjacent windows' filters: it satisfies
only the earlier window (its `begin` falls short of the shared
boundary), as `get_tenants` on the two windows shows. -/
theorem window_boundary_counterexample :
    boundaryFrame.end_ = 10 ∧
    windowFilter 0 10 boundaryFrame = true ∧
    windowFilter 10 20 boundaryFrame = false ∧
    get_tenants [boundaryFrame] 0 10 = ["tenantA"] ∧
    get_tenants [boundaryFrame] 10 20 = [] := by
  refine ⟨rfl, by decide, by decide, rfl, rfl⟩

/-- C8 (amended): every read query counts a frame as inside the window
iff `frame.begin >= windowStart` and `frame.end <= windowEnd`, both
inclusive (each query's row predicate contains exactly this
`windowFilter` clause); a frame whose `end` equals the next window's
`begin` satisfies the earlier window's filter whenever its `begin` is
inside that window, but satisfies the next window's filter only if its
`begin` also reaches the shared boundary. -/
theorem window_filter_spec :
    (∀ (b e : ℤ) (f : Frame),
      windowFilter b e f = true ↔ (b ≤ f.begin ∧ f.end_ ≤ e)) ∧
    (∀ (frames : List Frame) (b e : ℤ),
      get_tenants frames b e =
        ((frames.filter (windowFilter b e)).map Frame.tenant_id).dedup) ∧
    (∀ (w0 w1 : ℤ) (f : Frame), f.end_ = w1 → w0 ≤ f.begin →
      windowFilter w0 w1 f = true) ∧
    (∀ (w1 w2 : ℤ) (f : Frame), f.end_ = w1 → w1 ≤ w2 →
      (windowFilter w1 w2 f = true ↔ w1 ≤ f.begin)) ∧
    (∀ (b e : ℤ) (tid svc : Option String) (f : Frame),
      totalFilter b e tid svc f =
        (pyFilter tid f.tenant_id && pyFilter svc f.res_type &&
          windowFilter b e f)) ∧
    (∀ (b e : ℤ) (tid rt : Option String) (f : Frame),
      timeFrameFilter b e tid rt f =
        (windowFilter b e f && pyFilter tid f.tenant_id &&
          pyFilter rt f.res_type &&
          (truthy rt || decide (f.res_type ≠ "_NO_DATA_")))) ∧
    (∀ (b e : ℤ) (tid svc : Option String) (f : Frame),
      usageFilter b e tid svc f =
        (pyFilter tid f.tenant_id && pyFilter svc f.res_type &&
          windowFilter b e f && decide (f.res_type ≠ "_NO_DATA_"))) ∧
    (∀ (b e : ℤ) (tid svc : Option String) (f : Frame),
      bwFilter b e tid svc f =
        (pyFilter tid f.tenant_id && pyFilter svc f.res_type &&
          windowFilter b e f &&
          (decide (f.res_type = "network.bw.in") ||
            decide (f.res_type = "network.bw.out")))) := by
  refine ⟨?_, ?_, ?_, ?_, fun _ _ _ _ _ => rfl, fun _ _ _ _ _ => rfl,
    fun _ _ _ _ _ => rfl, fun _ _ _ _ _ => rfl⟩
  · intro b e f
    simp [windowFilter, Bool.and_eq_true, decide_eq_true_eq]
  · intro frames b e
    rfl
  · intro w0 w1 f h1 h2
    simp [windowFilter, h1, h2]
  · intro w1 w2 f h1 h2
    simp [windowFilter, h1, h2]

/-- Witness for C8: the boundary frame applied to the amended theorem's
two window clauses. -/
theorem window_filter_spec_witness :
    windowFilter 0 10 boundaryFrame = true ∧
    (windowFilter 10 20 boundaryFrame = true ↔
      (10 : ℤ) ≤ boundaryFrame.begin) :=
  ⟨window_filter_spec.2.2.1 0 10 boundaryFrame rfl (by decide),
   window_filter_spec.2.2.2.1 10 20 boundaryFrame rfl (by decide)⟩

lemma usageFilter_nonsentinel (b e : ℤ) (tid svc : Option String) :
    ∀ f : Frame, usageFilter b e tid svc f = true →
      decide (f.res_type ≠ "_NO_DATA_") = true := by
  intro f hf
  simp only [usageFilter, Bool.and_eq_true] at hf
  exact hf.2

lemma bwFilter_nonsentinel (b e : ℤ) (tid svc : Option String) :
    ∀ f : Frame, bwFilter b e tid svc f = true →
      decide (f.res_type ≠ "_NO_DATA_") = true := by
  intro f hf
  simp only [bwFilter, Bool.and_eq_true, Bool.or_eq_true,
    decide_eq_true_eq] at hf
  rcases hf.2 with h | h <;> simp [h]

lemma projectRows_drop_sentinels (frames : List Frame) (b e : ℤ)
    (tid svc : Option String) :
    projectRows (frames.filter (fun f => decide (f.res_type ≠ "_NO_DATA_")))
        b e tid svc =
      projectRows frames b e tid svc :=
  filter_sub _ _ (usageFilter_nonsentinel b e tid svc) frames

lemma bwRows_drop_sentinels (frames : List Frame) (b e : ℤ)
    (tid svc : Option String) :
    bwRows (frames.filter (fun f => decide (f.res_type ≠ "_NO_DATA_")))
        b e tid svc =
      bwRows frames b e tid svc :=
  filter_sub _ _ (bwFilter_nonsentinel b e tid svc) frames

/-- Counterexample to C1: a window holding only the sentinel inserted by
`_pre_commit` is distinguishable, through `get_total`, from a window
holding no rows at all: the former sums to `0`, the latter is absent
(SQL NULL), because `get_total` has no sentinel-excluding clause. -/
theorem sentinel_total_counterexample :
    get_total (_pre_commit false [] "tenantA" 0 10) 0 10 none none =
      some 0 ∧
    get_total ([] : List Frame) 0 10 none none = none ∧
    get_total (_pre_commit false [] "tenantA" 0 10) 0 10 none none ≠
      get_total ([] : List Frame) 0 10 none none := by
  have h1 : get_total (_pre_commit false [] "tenantA" 0 10) 0 10
      none none = some 0 := by
    rw [pre_commit_false_eq]
    simp [get_total, totalFilter, pyFilter, windowFilter, sentinelFrame]
  have h2 : get_total ([] : List Frame) 0 10 none none = none := rfl
  exact ⟨h1, h2, by rw [h1, h2]; simp⟩

/-- C1 (amended): sentinel frames contribute nothing to and never appear
in the results of `get_project_usage`, `get_instance_usage` and
`get_bandwidth_hourly_usage` (removing every `_NO_DATA_` row from the
store leaves those results unchanged, under every filter), but
`get_total` carries no sentinel-excluding clause: sentinel rows are
counted in its sum—contributing their `rate`, which is `0` for the
sentinels `_pre_commit` creates—so a window holding only sentinel rows
returns `some 0` while a window holding no rows returns `none`. -/
theorem sentinel_exclusion_spec :
    (∀ (frames : List Frame) (b e : ℤ) (tid svc : Option String),
      get_project_usage
          (frames.filter (fun f => decide (f.res_type ≠ "_NO_DATA_")))
          b e tid svc =
        get_project_usage frames b e tid svc) ∧
    (∀ (frames : List Frame) (b e : ℤ) (tid svc : Option String),
      get_instance_usage
          (frames.filter (fun f => decide (f.res_type ≠ "_NO_DATA_")))
          b e tid svc =
        get_instance_usage frames b e tid svc) ∧
    (∀ (frames : List Frame) (b e : ℤ) (tid svc : Option String),
      get_bandwidth_hourly_usage
          (frames.filter (fun f => decide (f.res_type ≠ "_NO_DATA_")))
          b e tid svc =
        get_bandwidth_hourly_usage frames b e tid svc) ∧
    (∀ (tenant : String) (b e : ℤ),
      get_total (_pre_commit false [] tenant b e) b e none none =
        some 0 ∧
      get_total [] b e none none = none) := by
  refine ⟨?_, ?_, ?_, ?_⟩
  · intro frames b e tid svc
    simp only [get_project_usage, project_groups]
    rw [projectRows_drop_sentinels]
  · intro frames b e tid svc
    simp only [get_instance_usage, instance_groups, instanceRows]
    have h := projectRows_drop_sentinels frames b e tid svc
    simp only [projectRows] at h
    rw [h]
  · intro frames b e tid svc
    simp only [get_bandwidth_hourly_usage, bw_data]
    rw [bwRows_drop_sentinels]
  · intro tenant b e
    constructor
    · rw [pre_commit_false_eq]
      simp [get_total, totalFilter, pyFilter, windowFilter, sentinelFrame]
    · rfl

lemma projectStep_inv (usage : List (String × TenantUsage)) (r : PGroup)
    (h : ∀ p ∈ usage, p.2.total_rate = typeRatesSum p.2.byType) :
    ∀ p ∈ projectStep usage r,
      p.2.total_rate = typeRatesSum p.2.byType := by
  intro p hp
  rcases mem_upsert hp with hm | ⟨tu, htu, rfl⟩ | rfl
  · exact h p hm
  · have hold := h (r.tenant_id, tu) htu
    simp only at hold ⊢
    rw [typeRatesSum_upsert, hold]
  · simp only
    rw [typeRatesSum_upsert]
    simp [typeRatesSum]

lemma foldl_projectStep_inv (groups : List PGroup)
    (usage : List (String × TenantUsage))
    (h : ∀ p ∈ usage, p.2.total_rate = typeRatesSum p.2.byType) :
    ∀ p ∈ groups.foldl projectStep usage,
      p.2.total_rate = typeRatesSum p.2.byType := by
  induction groups generalizing usage with
  | nil => exact h
  | cons r gs ih => exact ih (projectStep usage r) (projectStep_inv usage r h)

/-- C6: in every mapping returned by `get_project_usage`, each tenant's
`total.rate` equals the exact sum of the `rate` field over every entry
of every resource-type list returned for that tenant. -/
theorem project_usage_total_rate (frames : List Frame) (b e : ℤ)
    (tenant_id service : Option String) (t : String) (tu : TenantUsage)
    (h : (t, tu) ∈ get_project_usage frames b e tenant_id service) :
    tu.total_rate = typeRatesSum tu.byType :=
  foldl_projectStep_inv
    (project_groups frames b e tenant_id service) [] (by simp) (t, tu) h

/-- A concrete compute frame for the C6 witness store. -/
def c6Frame : Frame :=
  { tenant_id := "tenantA", res_type := "compute", unit := "hour",
    qty := 5, rate := 2, desc := Desc.empty, begin := 0, end_ := 10 }

/-- The tenant usage `get_project_usage` computes for `[c6Frame]`. -/
def c6Usage : TenantUsage :=
  { total_rate := 2, byType := [("compute", [⟨5, "hour", 2⟩])] }

lemma c6_eval :
    get_project_usage [c6Frame] 0 10 none none = [("tenantA", c6Usage)] := by
  simp [get_project_usage, project_groups, projectRows, usageFilter,
    pyFilter, windowFilter, projectStep, upsert, instanceIdOf,
    instanceNameOf, c6Frame, c6Usage, List.filter, List.dedup]

/-- Witness for C6: the concrete mapping computed for a one-frame store. -/
theorem project_usage_total_rate_witness :
    c6Usage.total_rate = typeRatesSum c6Usage.byType :=
  project_usage_total_rate [c6Frame] 0 10 none none "tenantA" c6Usage
    (by rw [c6_eval]; exact List.mem_singleton.mpr rfl)

lemma present_instanceStep
    (m : List (String × List (Option String × InstanceUsage)))
    (r : IGroup) (t : String) (i : Option String)
    (h : ∃ tmap, lookupA m t = some tmap ∧
      (lookupA tmap i).isSome = true) :
    ∃ tmap, lookupA (instanceStep m r) t = some tmap ∧
      (lookupA tmap i).isSome = true := by
  obtain ⟨tmap, ht, hi⟩ := h
  unfold instanceStep
  rw [lookupA_upsert]
  by_cases htt : t = r.tenant_id
  · simp only [htt, if_pos rfl]
    subst htt
    rw [ht]
    refine ⟨_, rfl, ?_⟩
    rw [lookupA_upsert]
    by_cases hii : i = r.instance_id
    · simp [hii]
    · simp [hii, hi]
  · simp only [htt, if_neg htt]
    exact ⟨tmap, ht, hi⟩

lemma present_instanceStep_self
    (m : List (String × List (Option String × InstanceUsage)))
    (r : IGroup) :
    ∃ tmap, lookupA (instanceStep m r) r.tenant_id = some tmap ∧
      (lookupA tmap r.instance_id).isSome = true := by
  unfold instanceStep
  rw [lookupA_upsert]
  simp only [if_pos rfl]
  refine ⟨_, rfl, ?_⟩
  rw [lookupA_upsert]
  simp

lemma present_foldl_instanceStep (gs : List IGroup)
    (m : List (String × List (Option String × InstanceUsage)))
    (t : String) (i : Option String)
    (h : ∃ tmap, lookupA m t = some tmap ∧
      (lookupA tmap i).isSome = true) :
    ∃ tmap, lookupA (gs.foldl instanceStep m) t = some tmap ∧
      (lookupA tmap i).isSome = true := by
  induction gs generalizing m with
  | nil => exact h
  | cons r gsr ih =>
    exact ih (instanceStep m r) (present_instanceStep m r t i h)

lemma mem_groups_present (gs : List IGroup)
    (m : List (String × List (Option String × InstanceUsage))) :
    ∀ g ∈ gs, ∃ tmap,
      lookupA (gs.foldl instanceStep m) g.tenant_id = some tmap ∧
      (lookupA tmap g.instance_id).isSome = true := by
  induction gs generalizing m with
  | nil => intro g hg; exact absurd hg (by simp)
  | cons r gsr ih =>
    intro g hg
    rcases List.mem_cons.mp hg with hg' | hg'
    · subst hg'
      exact present_foldl_instanceStep gsr (instanceStep m g) _ _
        (present_instanceStep_self m g)
    · exact ih (instanceStep m r) g hg'

lemma mem_instance_groups (frames : List Frame) (b e : ℤ)
    (tid svc : Option String) (f : Frame)
    (hf : f ∈ instanceRows frames b e tid svc) :
    ∃ g ∈ instance_groups frames b e tid svc,
      g.tenant_id = f.tenant_id ∧ g.instance_id = instanceIdOf f := by
  unfold instance_groups
  exact ⟨_,
    List.mem_map_of_mem _
      (List.mem_dedup.mpr (List.mem_map_of_mem _ hf)), rfl, rfl⟩

/-- C9: in `get_instance_usage`, a non-sentinel frame's `instance_id` is
read from `desc.properties.instance_uuid` when `res_type = "image"` and
from `desc.instance_id` otherwise; its `instance_name` is read from
`desc.name` for `compute`, from `desc.display_name` for the two
bandwidth types, and from `desc.instance_name` otherwise; and every
surviving row is grouped under the resulting `instance_id` inside its
tenant's mapping. -/
theorem instance_usage_classification :
    (∀ f : Frame, instanceIdOf f =
      if f.res_type = "image" then f.desc.properties_instance_uuid
      else f.desc.instance_id) ∧
    (∀ f : Frame, instanceNameOf f =
      if f.res_type = "compute" then f.desc.name
      else if f.res_type = "network.bw.in" ∨ f.res_type = "network.bw.out"
        then f.desc.display_name
      else f.desc.instance_name) ∧
    (∀ (frames : List Frame) (b e : ℤ) (tid svc : Option String)
      (f : Frame), f ∈ instanceRows frames b e tid svc →
      ∃ tmap, lookupA (get_instance_usage frames b e tid svc)
          f.tenant_id = some tmap ∧
        (lookupA tmap (instanceIdOf f)).isSome = true) := by
  refine ⟨fun _ => rfl, fun _ => rfl, ?_⟩
  intro frames b e tid svc f hf
  obtain ⟨g, hg, hgt, hgi⟩ := mem_instance_groups frames b e tid svc f hf
  rw [← hgt, ← hgi]
  exact mem_groups_present (instance_groups frames b e tid svc) [] g hg

/-- A concrete image frame for the C9 witness store. -/
def c9Frame : Frame :=
  { tenant_id := "tenantA", res_type := "image", unit := "image",
    qty := 1, rate := 2,
    desc := { instance_id := some "iid", instance_name := some "iname",
              name := some "nm", display_name := some "dn",
              properties_instance_uuid := some "uuid1" },
    begin := 0, end_ := 10 }

/-- Witness for C9: the image frame is attributed, inside its tenant's
mapping, to the instance id read from `properties.instance_uuid`. -/
theorem instance_usage_classification_witness :
    ∃ tmap, lookupA (get_instance_usage [c9Frame] 0 10 none none)
        c9Frame.tenant_id = some tmap ∧
      (lookupA tmap (instanceIdOf c9Frame)).isSome = true :=
  instance_usage_classification.2.2 [c9Frame] 0 10 none none c9Frame
    (by simp [instanceRows, usageFilter, pyFilter, windowFilter, c9Frame])

end CloudKitty
